import Mathlib

/-!
Verification of the Period Aggregator of the kebo-whatsapp repository
(src/app/api/kapso/webhook/route.ts), shallowly embedded in Lean.

Conventions of the embedding:
* Instants are integers counting milliseconds since the Unix epoch, as in
  JavaScript `Date` values.
* A calendar date is a triple `(y, m, d)` of integers with `m` the 0-based
  month, exactly the components `getFullYear() / getMonth() / getDate()`
  of a `Date` in local time.  The functions below accept out-of-range
  `m` and `d` and normalise them the same way `Date.UTC` does.
* Monetary amounts are embedded as rationals in the summary functions.
  The source accumulates them in IEEE binary64 JavaScript numbers; that
  numeric behaviour is modelled separately and exactly by the `F64` type
  and `f64add` (correctly rounded binary64 addition) below, and the
  claims about exactness and order-independence of the accumulation are
  settled against that model.
-/

/-- Day number (days since 1970-01-01) of the calendar date that
`Date.UTC(y, m, d, …)` denotes, including the JavaScript normalisation of
out-of-range month (`y + m div 12`, `m mod 12`) and day-of-month overflow
(day `d` is day 1 of the month plus `d - 1` days).  Uses the standard
March-based Gregorian formula; all divisions are floor divisions. -/
def dateUTCdays (y m d : ℤ) : ℤ :=
  365 * (y + m / 12 - (m % 12 + 10) % 12 / 10)
    + (y + m / 12 - (m % 12 + 10) % 12 / 10) / 4
    - (y + m / 12 - (m % 12 + 10) % 12 / 10) / 100
    + (y + m / 12 - (m % 12 + 10) % 12 / 10) / 400
    + ((m % 12 + 10) % 12 * 306 + 5) / 10
    + (d - 1) - 719468

/-- Millisecond timestamp of `Date.UTC(y, m, d, h, 0, 0, 0)`. -/
def dateUTC (y m d h : ℤ) : ℤ :=
  dateUTCdays y m d * 86400000 + h * 3600000

/-- Weekday of a calendar date, as returned by the JavaScript `getDay()`
(0 = Sunday, …, 6 = Saturday; 1970-01-01 was a Thursday, weekday 4). -/
def jsGetDay (y m d : ℤ) : ℤ :=
  (dateUTCdays y m d + 4) % 7

/-- Day number of the local (UTC-5) calendar day containing a millisecond
timestamp: local time is the instant minus five hours. -/
def localDayNumber (t : ℤ) : ℤ :=
  (t - 5 * 3600000) / 86400000

/-- Weekday (0 = Sunday) of the local UTC-5 calendar day containing a
millisecond timestamp. -/
def localWeekday (t : ℤ) : ℤ :=
  (localDayNumber t + 4) % 7

/-- The four named periods accepted by `getDateRangeForPeriod`. -/
inductive Period where
  | day
  | week
  | month
  | year
deriving DecidableEq, Repr

/-- Result type of `getDateRangeForPeriod`: a half-open window of instants
with a display label. -/
structure DateRange where
  start : ℤ
  «end» : ℤ
  label : String
deriving DecidableEq, Repr

/-- Embedding of `getDateRangeForPeriod(period, referenceDate)` from
route.ts.  The reference date is given by its local calendar components
`(y, m, d)`; the weekday read by `referenceDate.getDay()` is `jsGetDay y m d`.
In the `week` case the source builds `new Date(year, month, date - day)`,
reads back its normalised components and feeds them to `Date.UTC`; since
`Date.UTC` applies the same normalisation, this equals
`dateUTC y m (d - weekday) 5`, which is used here directly. -/
def getDateRangeForPeriod (period : Period) (y m d : ℤ) : DateRange :=
  match period with
  | .day =>
      { start := dateUTC y m d 5
        «end» := dateUTC y m (d + 1) 5
        label := "Today" }
  | .week =>
      { start := dateUTC y m (d - jsGetDay y m d) 5
        «end» := dateUTC y m (d - jsGetDay y m d + 7) 5
        label := "This Week" }
  | .month =>
      { start := dateUTC y m 1 5
        «end» := dateUTC y (m + 1) 1 5
        label := "This Month" }
  | .year =>
      { start := dateUTC y 0 1 5
        «end» := dateUTC (y + 1) 0 1 5
        label := "This Year" }

/-- A stored expense row, with the columns read by the summary queries.
Amounts are embedded as exact rationals. -/
structure Expense where
  userId : String
  amount : ℚ
  category : String
  spentAt : ℤ
deriving DecidableEq, Repr

/-- One entry of the per-category breakdown, as in lib/images. -/
structure CategoryBreakdown where
  category : String
  total : ℚ
  count : ℕ
deriving DecidableEq, Repr

/-- The summary value returned by `getExpensesSummary` and
`getExpensesByCategory`. -/
structure Summary where
  periodLabel : String
  startDate : ℤ
  endDate : ℤ
  totalAmount : ℚ
  entryCount : ℕ
  byCategory : List CategoryBreakdown
deriving DecidableEq, Repr

/-- JavaScript `Map.get`: lookup in an insertion-ordered association list. -/
def mapGet : List (String × ℚ × ℕ) → String → Option (ℚ × ℕ)
  | [], _ => none
  | (k, v) :: rest, c => if k = c then some v else mapGet rest c

/-- JavaScript `Map.set`: update the value in place when the key is
present, otherwise append the new pair at the end. -/
def mapSet : List (String × ℚ × ℕ) → String → ℚ × ℕ → List (String × ℚ × ℕ)
  | [], k, v => [(k, v)]
  | (k0, v0) :: rest, k, v =>
      if k0 = k then (k, v) :: rest else (k0, v0) :: mapSet rest k v

/-- Body of the summary loop of route.ts: add the amount to the running
total and to the category entry of the map (defaulting to `(0, 0)`),
incrementing the category count.  This loop is textually identical in
`getExpensesSummary` and `getExpensesByCategory`.  The additions here are
idealised as exact rationals; the binary64 additions the source actually
performs are modelled faithfully by `sumStepF` below, and the properties
that depend on rounding are settled against that model. -/
def sumStep (acc : ℚ × List (String × ℚ × ℕ)) (e : Expense) :
    ℚ × List (String × ℚ × ℕ) :=
  (acc.1 + e.amount,
   mapSet acc.2 e.category
     (((mapGet acc.2 e.category).getD (0, 0)).1 + e.amount,
      ((mapGet acc.2 e.category).getD (0, 0)).2 + 1))

/-- The whole reduction: fold `sumStep` over the fetched entries starting
from total 0 and the empty map. -/
def reduceEntries (es : List Expense) : ℚ × List (String × ℚ × ℕ) :=
  es.foldl sumStep (0, [])

/-- The conversion of the category map into the breakdown list, as done
by `Array.from(byCategory.entries()).map(...)` in both summary
functions: insertion order is preserved. -/
def toBreakdown (l : List (String × ℚ × ℕ)) : List CategoryBreakdown :=
  l.map (fun kv => { category := kv.1, total := kv.2.1, count := kv.2.2 })

/-- Parameters of the `getExpensesSummary` tool.  `date` is the parsed
`YYYY-MM-DD` reference date (local calendar components, 0-based month);
`none` means the current Colombia date is used. -/
structure GetExpensesSummaryParams where
  period : Period
  date : Option (ℤ × ℤ × ℤ)
  category : Option String
deriving DecidableEq, Repr

/-- The window computed inside `getExpensesSummary`: the reference date is
`params.date` when given (the source parses it at local noon, whose
calendar components are the given date), otherwise the current Colombia
date `now`. -/
def summaryRange (p : GetExpensesSummaryParams) (now : ℤ × ℤ × ℤ) :
    DateRange :=
  match p.date.getD now with
  | (ry, rm, rd) => getDateRangeForPeriod p.period ry rm rd

/-- The `where` condition of the `getExpensesSummary` query: user match,
`spentAt` in the half-open window, and the optional category filter.  The
source guards the category condition with JavaScript truthiness, so an
empty-string category applies no filter. -/
def expenseMatch (userId : String) (r : DateRange) (cat : Option String)
    (e : Expense) : Bool :=
  (e.userId == userId) && decide (r.start ≤ e.spentAt)
    && decide (e.spentAt < r.«end»)
    && (match cat with
        | none => true
        | some c => (c == "") || (e.category == c))

/-- The record set fetched by `getExpensesSummary`: the rows of the store
satisfying the query condition. -/
def matchedExpenses (userId : String) (p : GetExpensesSummaryParams)
    (now : ℤ × ℤ × ℤ) (storage : List Expense) : List Expense :=
  storage.filter (expenseMatch userId (summaryRange p now) p.category)

/-- Embedding of `getExpensesSummary(userId, params)` from route.ts.  The
storage collaborator is passed explicitly as the list of rows it holds;
`now` is the current Colombia calendar date used when `params.date` is
absent. -/
def getExpensesSummary (userId : String) (p : GetExpensesSummaryParams)
    (now : ℤ × ℤ × ℤ) (storage : List Expense) : Summary :=
  { periodLabel := (summaryRange p now).label
    startDate := (summaryRange p now).start
    endDate := (summaryRange p now).«end»
    totalAmount := (reduceEntries (matchedExpenses userId p now storage)).1
    entryCount := (matchedExpenses userId p now storage).length
    byCategory :=
      toBreakdown (reduceEntries (matchedExpenses userId p now storage)).2 }

/-- Parameters of the `getExpensesByCategory` tool: the numbers obtained
by splitting the `YYYY-MM-DD` start and end dates (month 1-based, exactly
as in the source before the `- 1` adjustment). -/
structure GetExpensesByCategoryParams where
  startYear : ℤ
  startMonth : ℤ
  startDay : ℤ
  endYear : ℤ
  endMonth : ℤ
  endDay : ℤ
deriving DecidableEq, Repr

/-- The query window built inside `getExpensesByCategory`: both bounds at
hour 5 UTC (local midnight under UTC-5), and the end date bumped forward
one calendar day before use as the exclusive upper bound. -/
def customRangeWindow (p : GetExpensesByCategoryParams) : ℤ × ℤ :=
  (dateUTC p.startYear (p.startMonth - 1) p.startDay 5,
   dateUTC p.endYear (p.endMonth - 1) (p.endDay + 1) 5)

/-- The `where` condition of the `getExpensesByCategory` query (no
category filter). -/
def customMatch (userId : String) (p : GetExpensesByCategoryParams)
    (e : Expense) : Bool :=
  (e.userId == userId) && decide ((customRangeWindow p).1 ≤ e.spentAt)
    && decide (e.spentAt < (customRangeWindow p).2)

/-- The record set fetched by `getExpensesByCategory`. -/
def matchedCustomExpenses (userId : String)
    (p : GetExpensesByCategoryParams) (storage : List Expense) :
    List Expense :=
  storage.filter (customMatch userId p)

/-- Embedding of `getExpensesByCategory(userId, params)` from route.ts.
Note that the returned `startDate` and `endDate` are
`new Date(params.startDate)` and `new Date(params.endDate)`: a date-only
ISO string parses as midnight UTC (hour 0), not as the hour-5 window
instants used in the query, and the end date is not bumped. -/
def getExpensesByCategory (userId : String)
    (p : GetExpensesByCategoryParams) (storage : List Expense) : Summary :=
  { periodLabel := "Custom Range"
    startDate := dateUTC p.startYear (p.startMonth - 1) p.startDay 0
    endDate := dateUTC p.endYear (p.endMonth - 1) p.endDay 0
    totalAmount :=
      (reduceEntries (matchedCustomExpenses userId p storage)).1
    entryCount := (matchedCustomExpenses userId p storage).length
    byCategory :=
      toBreakdown (reduceEntries (matchedCustomExpenses userId p storage)).2 }

/-- The values a finite IEEE binary64 JavaScript number can denote are
dyadic rationals: `q` is representable only if `q * 2 ^ k` is an integer
for some `k`.  The accumulators `totalAmount` and the per-category
`total` of route.ts are such numbers. -/
def binary64Value (q : ℚ) : Prop :=
  ∃ (n : ℤ) (k : ℕ), q * 2 ^ k = (n : ℚ)

/-- Runtime errors of the embedded handler: a TypeError raised by the
JavaScript runtime itself, or an error thrown by an awaited collaborator
call (database, AI, rendering, upload, messaging). -/
inductive JsError where
  | typeError (msg : String)
  | thrown (msg : String)
deriving DecidableEq, Repr

/-- The fields of a webhook message read by the POST handler.  Every field
that the TypeScript interface marks optional, and also `from`, which an
arbitrary JSON body may omit even though the interface declares it, is an
`Option`. -/
structure WebhookMessage where
  mtype : String
  fromNumber : Option String
  textBody : Option String
  imageCaption : Option String
  kapsoDirection : Option String
  kapsoMediaUrl : Option String
  mediaDataUrl : Option String
deriving DecidableEq, Repr

/-- One element of the batch `data` array. -/
structure WebhookItem where
  message : Option WebhookMessage
  conversationId : Option String
  phoneNumberId : Option String
deriving DecidableEq, Repr

/-- A parsed JSON webhook body, with both the batch and the legacy
top-level fields. -/
structure WebhookPayload where
  batch : Bool
  data : Option (List WebhookItem)
  legacyMessage : Option WebhookMessage
  legacyConversationId : Option String
  legacyPhoneNumberId : Option String
deriving DecidableEq, Repr

/-- The batch-or-legacy extraction at the top of POST: the first item of
`data` is used when `payload.batch` is truthy and `payload.data?.length > 0`,
otherwise the legacy top-level fields. -/
def resolvePayload (p : WebhookPayload) :
    Option WebhookMessage × Option String × Option String :=
  match p.data with
  | some (item :: _) =>
      if p.batch then (item.message, item.conversationId, item.phoneNumberId)
      else (p.legacyMessage, p.legacyConversationId, p.legacyPhoneNumberId)
  | _ => (p.legacyMessage, p.legacyConversationId, p.legacyPhoneNumberId)

/-- JavaScript `s.replace(/\D/g, "")`: keep only digit characters. -/
def digitsOnly (s : String) : String :=
  String.mk (s.data.filter Char.isDigit)

/-- The outcome of the `generateText` call that the handler inspects: the
flattened tool-result names of all steps, in order, and the final text. -/
structure AiResult where
  toolNames : List String
  text : String
deriving DecidableEq, Repr

/-- Outcomes of every external collaborator call the handler awaits.
The media download and transcription helpers catch their own errors and
return null on failure, so they are `Option`; every step inside the try
block may throw, so those are `Except`.  Per-tool-call steps take the
index of the tool call. -/
structure Oracles where
  downloadMedia : String → Option Unit
  downloadAudio : String → Option Unit
  transcribe : Option String
  getOrCreateUser : Except JsError String
  getConversationMessages : Except JsError (List String)
  generateText : Except JsError AiResult
  whatsAppClientInit : Except JsError Unit
  saveExpense : ℕ → Except JsError Unit
  summaryDbQuery : ℕ → Except JsError Unit
  byCategoryDbQuery : ℕ → Except JsError Unit
  renderImage : ℕ → Except JsError Unit
  uploadImage : ℕ → Except JsError Unit
  sendImage : ℕ → Except JsError Unit
  sendText : Except JsError Unit

/-- What the pre-try part of the handler computes when it decides to
proceed. -/
structure RequestContext where
  sender : String
  phoneNumberId : String
  conversationId : Option String
deriving DecidableEq, Repr

/-- The tool-call processing loop inside the try block: each recognised
tool result triggers its database step, an image render, an upload and a
WhatsApp send, any of which may throw. -/
def runToolCalls (o : Oracles) : List String → ℕ → Except JsError Unit
  | [], _ => Except.ok ()
  | name :: rest, i => do
      if name = "logExpense" then do
        o.saveExpense i
        o.renderImage i
        o.uploadImage i
        o.sendImage i
      else if name = "getExpensesSummary" then do
        o.summaryDbQuery i
        o.renderImage i
        o.uploadImage i
        o.sendImage i
      else if name = "getExpensesByCategory" then do
        o.byCategoryDbQuery i
        o.renderImage i
        o.uploadImage i
        o.sendImage i
      else pure ()
      runToolCalls o rest (i + 1)

/-- The body of the try block: get or create the user, fetch history when
a conversation id is present, run the model, process its tool calls, and
send the final text when it is non-blank. -/
def tryBody (ctx : RequestContext) (o : Oracles) : Except JsError Unit := do
  let _ ← o.getOrCreateUser
  let _ ←
    match ctx.conversationId with
    | some _ => o.getConversationMessages
    | none => Except.ok []
  let r ← o.generateText
  let _ ← o.whatsAppClientInit
  runToolCalls o r.toolNames 0
  if r.text.trim ≠ "" then o.sendText else pure ()

/-- JavaScript falsiness of an optional string: absent or empty. -/
def jsFalsyStr : Option String → Bool
  | none => true
  | some s => s == ""

/-- Image download step of POST: for an image message with a media url,
the (never-throwing) download result; otherwise null. -/
def resolveImageData (msg : WebhookMessage) (o : Oracles) : Option Unit :=
  if msg.mtype = "image" then
    match msg.kapsoMediaUrl <|> msg.mediaDataUrl with
    | some u => o.downloadMedia u
    | none => none
  else none

/-- The initial text content: the text body for a text message, else the
image caption. -/
def resolveText0 (msg : WebhookMessage) : Option String :=
  if msg.mtype = "text" then msg.textBody else msg.imageCaption

/-- The user text after the audio path: for an audio message whose
download and transcription both succeed with a truthy transcript, the
transcript replaces the text content. -/
def resolveUserText (msg : WebhookMessage) (o : Oracles) : Option String :=
  if msg.mtype = "audio" then
    match msg.kapsoMediaUrl <|> msg.mediaDataUrl with
    | some u =>
        match o.downloadAudio u with
        | some _ =>
            match o.transcribe with
            | some t => if t = "" then resolveText0 msg else some t
            | none => resolveText0 msg
        | none => resolveText0 msg
    | none => resolveText0 msg
  else resolveText0 msg

/-- The pre-try part of POST: resolve the payload, return early (as
`none`) on a non-inbound or unsupported message, compute the sender
number (a TypeError when `from` is absent), return early on a falsy
phone number id, resolve text, image and audio content, and return early
when neither text nor image data is available.  Falsy string checks
mirror JavaScript truthiness. -/
def preprocess (p : WebhookPayload) (o : Oracles) :
    Except JsError (Option RequestContext) :=
  match (resolvePayload p).1 with
    | none => Except.ok none
    | some msg =>
      if msg.kapsoDirection ≠ some ("inbound") then Except.ok none
      else if ¬(msg.mtype = "text" ∨ msg.mtype = "image" ∨
          msg.mtype = "audio") then Except.ok none
      else
        match msg.fromNumber with
        | none => Except.error (JsError.typeError ("message.from is undefined"))
        | some f =>
          match (resolvePayload p).2.2 with
          | none => Except.ok none
          | some pid =>
            if pid = "" then Except.ok none
            else if jsFalsyStr (resolveUserText msg o)
                && (resolveImageData msg o).isNone then Except.ok none
            else
              Except.ok (some
                { sender := digitsOnly f
                  phoneNumberId := pid
                  conversationId := (resolvePayload p).2.1 })

/-- The HTTP outcome of the handler, with an instrumentation flag
recording whether the catch block attempted the apology send. -/
structure HttpOutcome where
  status : ℕ
  body : String
  apologyAttempted : Bool
deriving DecidableEq, Repr

/-- Embedding of the POST handler of route.ts.  An early return gives
200 OK; when the try body throws, the catch block attempts the apology
send (whose own failure is swallowed by the inner try) and the handler
still returns 200 OK; a TypeError in the pre-try part escapes the
handler. -/
def POST (p : WebhookPayload) (o : Oracles) : Except JsError HttpOutcome :=
  match preprocess p o with
  | Except.error e => Except.error e
  | Except.ok none =>
      Except.ok { status := 200, body := "OK", apologyAttempted := false }
  | Except.ok (some ctx) =>
      match tryBody ctx o with
      | Except.ok _ =>
          Except.ok { status := 200, body := "OK", apologyAttempted := false }
      | Except.error _ =>
          Except.ok { status := 200, body := "OK", apologyAttempted := true }

/-- Sum of the `total` components of a category map. -/
def sumTotals (l : List (String × ℚ × ℕ)) : ℚ :=
  (l.map (fun kv => kv.2.1)).sum

/-- Sum of the `count` components of a category map. -/
def sumCounts (l : List (String × ℚ × ℕ)) : ℕ :=
  (l.map (fun kv => kv.2.2)).sum

/-- The keys of a category map, in insertion order. -/
def mapKeys (l : List (String × ℚ × ℕ)) : List String :=
  l.map Prod.fst

/-- A payload whose inbound text message has no `from` field: legal JSON
that the TypeScript interface rules out but nothing validates. -/
def payloadNoFrom : WebhookPayload :=
  { batch := false
    data := none
    legacyMessage := some
      { mtype := "text"
        fromNumber := none
        textBody := some ("hola")
        imageCaption := none
        kapsoDirection := some ("inbound")
        kapsoMediaUrl := none
        mediaDataUrl := none }
    legacyConversationId := none
    legacyPhoneNumberId := some ("12345") }

/-- An inbound text message with the `from` field present. -/
def messageWithFrom : WebhookMessage :=
  { mtype := "text"
    fromNumber := some ("+57 300 111 2222")
    textBody := some ("hola")
    imageCaption := none
    kapsoDirection := some ("inbound")
    kapsoMediaUrl := none
    mediaDataUrl := none }

/-- The same payload with the `from` field present. -/
def payloadWithFrom : WebhookPayload :=
  { batch := false
    data := none
    legacyMessage := some messageWithFrom
    legacyConversationId := none
    legacyPhoneNumberId := some ("12345") }

/-- Collaborator outcomes in which every call succeeds. -/
def stubOracles : Oracles :=
  { downloadMedia := fun _ => some ()
    downloadAudio := fun _ => some ()
    transcribe := some ("texto")
    getOrCreateUser := Except.ok ("user-1")
    getConversationMessages := Except.ok []
    generateText := Except.ok { toolNames := ["logExpense"], text := "Got it" }
    whatsAppClientInit := Except.ok ()
    saveExpense := fun _ => Except.ok ()
    summaryDbQuery := fun _ => Except.ok ()
    byCategoryDbQuery := fun _ => Except.ok ()
    renderImage := fun _ => Except.ok ()
    uploadImage := fun _ => Except.ok ()
    sendImage := fun _ => Except.ok ()
    sendText := Except.ok () }

/-- Collaborator outcomes in which the model call throws. -/
def failingOracles : Oracles :=
  { stubOracles with
    generateText := Except.error (JsError.thrown ("ai unavailable")) }

/-- A concrete expense of 0.10 USD inside the 2024-01-15 day window. -/
def sampleExpense1 : Expense :=
  { userId := "u", amount := 1 / 10, category := "food_dining"
    spentAt := 1705300000000 }

/-- A concrete expense of 0.20 USD inside the 2024-01-15 day window. -/
def sampleExpense2 : Expense :=
  { userId := "u", amount := 2 / 10, category := "transportation"
    spentAt := 1705309000000 }

/-- Concrete summary parameters: the day of 2024-01-15, no category
filter. -/
def sampleParams : GetExpensesSummaryParams :=
  { period := Period.day, date := some (2024, 0, 15), category := none }


/-- A finite IEEE binary64 value in the normal range, written as an
integer significand times a power of two: the value is `m * 2 ^ e`.
Nonzero values are kept in the canonical form `2 ^ 52 ≤ |m| < 2 ^ 53`,
so two values are equal exactly when their representations are. -/
structure F64 where
  m : ℤ
  e : ℤ
deriving DecidableEq, Repr

/-- Fuel-driven binary length so that the recursion is structural; the
fuel `n` always suffices for `n` itself. -/
def bitsAux : ℕ → ℕ → ℕ
  | 0, _ => 0
  | fuel + 1, n => if n = 0 then 0 else bitsAux fuel (n / 2) + 1

/-- Number of binary digits of a natural number (`bits 0 = 0`,
`2 ^ (bits n - 1) ≤ n < 2 ^ bits n` for positive `n`). -/
def bits (n : ℕ) : ℕ := bitsAux n n

/-- Round `S / t` (with `t = 2 ^ k > 0`) to the nearest integer, ties to
even — the IEEE 754 default rounding. -/
def rne (S : ℤ) (t : ℤ) : ℤ :=
  if 2 * (S - S / t * t) < t then S / t
  else if t < 2 * (S - S / t * t) then S / t + 1
  else if S / t % 2 = 0 then S / t else S / t + 1

/-- Bring an exact value `S * 2 ^ e` with `|S| < 2 ^ 53` into canonical
form by scaling the significand up. -/
def normUp (S : ℤ) (e : ℤ) : F64 :=
  if S = 0 then ⟨0, 0⟩
  else ⟨S * 2 ^ (53 - bits S.natAbs), e - (53 - bits S.natAbs)⟩

/-- IEEE binary64 addition in the normal range: align both summands at
the smaller exponent, add the significands exactly, and round the exact
sum to 53 significant bits, nearest, ties to even (renormalising when
rounding carries out).  In the normal finite range, where none of the
values used below leave, this is exactly what the JavaScript `+` on
numbers computes; overflow to infinity and subnormal underflow are
outside the modelled range. -/
def f64add (x y : F64) : F64 :=
  if x.m = 0 then y
  else if y.m = 0 then x
  else
    if (x.m * 2 ^ (x.e - min x.e y.e).toNat
        + y.m * 2 ^ (y.e - min x.e y.e).toNat) = 0 then ⟨0, 0⟩
    else if bits (x.m * 2 ^ (x.e - min x.e y.e).toNat
        + y.m * 2 ^ (y.e - min x.e y.e).toNat).natAbs ≤ 53 then
      normUp (x.m * 2 ^ (x.e - min x.e y.e).toNat
        + y.m * 2 ^ (y.e - min x.e y.e).toNat) (min x.e y.e)
    else
      if (rne (x.m * 2 ^ (x.e - min x.e y.e).toNat
            + y.m * 2 ^ (y.e - min x.e y.e).toNat)
          (2 ^ (bits (x.m * 2 ^ (x.e - min x.e y.e).toNat
            + y.m * 2 ^ (y.e - min x.e y.e).toNat).natAbs - 53))).natAbs
          = 2 ^ 53 then
        ⟨(rne (x.m * 2 ^ (x.e - min x.e y.e).toNat
            + y.m * 2 ^ (y.e - min x.e y.e).toNat)
          (2 ^ (bits (x.m * 2 ^ (x.e - min x.e y.e).toNat
            + y.m * 2 ^ (y.e - min x.e y.e).toNat).natAbs - 53))) / 2,
         min x.e y.e
           + (bits (x.m * 2 ^ (x.e - min x.e y.e).toNat
              + y.m * 2 ^ (y.e - min x.e y.e).toNat).natAbs - 53) + 1⟩
      else
        ⟨rne (x.m * 2 ^ (x.e - min x.e y.e).toNat
            + y.m * 2 ^ (y.e - min x.e y.e).toNat)
          (2 ^ (bits (x.m * 2 ^ (x.e - min x.e y.e).toNat
            + y.m * 2 ^ (y.e - min x.e y.e).toNat).natAbs - 53)),
         min x.e y.e
           + (bits (x.m * 2 ^ (x.e - min x.e y.e).toNat
              + y.m * 2 ^ (y.e - min x.e y.e).toNat).natAbs - 53)⟩

/-- The exact rational value of a binary64 datum. -/
def f64val (x : F64) : ℚ := (x.m : ℚ) * 2 ^ x.e

/-- The binary64 value of `Number("0.1")`:
`7205759403792794 * 2 ^ (-56)`, the closest double to 1/10 (see
`float_constants_within_half_ulp`). -/
def d01 : F64 := ⟨7205759403792794, -56⟩

/-- The binary64 value of `Number("0.2")`:
`7205759403792794 * 2 ^ (-55)`. -/
def d02 : F64 := ⟨7205759403792794, -55⟩

/-- The binary64 value of `Number("0.3")`:
`5404319552844595 * 2 ^ (-54)`. -/
def d03 : F64 := ⟨5404319552844595, -54⟩

/-- JavaScript `Map.get` over binary64 breakdown values. -/
def mapGetF : List (String × F64 × ℕ) → String → Option (F64 × ℕ)
  | [], _ => none
  | (k, v) :: rest, c => if k = c then some v else mapGetF rest c

/-- JavaScript `Map.set` over binary64 breakdown values. -/
def mapSetF : List (String × F64 × ℕ) → String → F64 × ℕ →
    List (String × F64 × ℕ)
  | [], k, v => [(k, v)]
  | (k0, v0) :: rest, k, v =>
      if k0 = k then (k, v) :: rest else (k0, v0) :: mapSetF rest k v

/-- The summary loop of route.ts with its numeric semantics taken
literally: `totalAmount += amount` and `existing.total + amount` are
binary64 additions.  Each record is its category together with the
binary64 value produced by `Number(entry.amount)`. -/
def sumStepF (acc : F64 × List (String × F64 × ℕ)) (e : String × F64) :
    F64 × List (String × F64 × ℕ) :=
  (f64add acc.1 e.2,
   mapSetF acc.2 e.1
     (f64add ((mapGetF acc.2 e.1).getD (⟨0, 0⟩, 0)).1 e.2,
      ((mapGetF acc.2 e.1).getD (⟨0, 0⟩, 0)).2 + 1))

/-- The whole reduction of route.ts over binary64 numbers, starting from
`totalAmount = 0` and the empty map. -/
def reduceEntriesF (es : List (String × F64)) :
    F64 × List (String × F64 × ℕ) :=
  es.foldl sumStepF (⟨0, 0⟩, [])

/-- A matched record set with amounts 0.1, 0.2, 0.3 across two
categories, as the program sees it after `Number(entry.amount)`. -/
def floatEntries : List (String × F64) :=
  [("food_dining", d01), ("transportation", d02), ("food_dining", d03)]

/-- The same record set fetched in the reverse order. -/
def floatEntriesPermuted : List (String × F64) :=
  [("food_dining", d03), ("transportation", d02), ("food_dining", d01)]

/-! ## Calendar arithmetic lemmas -/

/-- Sanity check of the day-number formula at the epoch. -/
theorem dateUTCdays_epoch : dateUTCdays 1970 0 1 = 0 := by decide

/-- Sanity check: 2024-01-01 is day 19723 and a Monday. -/
theorem dateUTCdays_check_2024 :
    dateUTCdays 2024 0 1 = 19723 ∧ jsGetDay 2024 0 1 = 1 := by decide

/-- Sanity check of Gregorian leap rules: 1900 is not a leap year, 2000
and 2024 are. -/
theorem dateUTCdays_leap_checks :
    dateUTCdays 1900 1 29 = dateUTCdays 1900 2 1 ∧
    dateUTCdays 2000 1 29 + 1 = dateUTCdays 2000 2 1 ∧
    dateUTCdays 2024 1 29 + 1 = dateUTCdays 2024 2 1 := by decide

/-- JavaScript month normalisation: an out-of-range month is carried into
the year. -/
theorem dateUTCdays_norm_month (y m d : ℤ) :
    dateUTCdays y m d = dateUTCdays (y + m / 12) (m % 12) d := by
  unfold dateUTCdays
  omega

/-- The day number is linear in the day-of-month argument. -/
theorem dateUTCdays_linear (y m d e : ℤ) :
    dateUTCdays y m e - dateUTCdays y m d = e - d := by
  unfold dateUTCdays
  omega

/-- December rollover: month 12 of year `y` is January of year `y + 1`. -/
theorem dateUTCdays_dec_rollover (y : ℤ) :
    dateUTCdays y 12 1 = dateUTCdays (y + 1) 0 1 := by
  unfold dateUTCdays
  omega

/-- For an in-range month, the gap between consecutive first-of-month day
numbers is a month length: between 28 and 31 days. -/
theorem dateUTCdays_month_first_bounds (y r : ℤ) (h0 : 0 ≤ r) (h1 : r ≤ 11) :
    28 ≤ dateUTCdays y (r + 1) 1 - dateUTCdays y r 1 ∧
      dateUTCdays y (r + 1) 1 - dateUTCdays y r 1 ≤ 31 := by
  interval_cases r <;> (unfold dateUTCdays; omega)

/-- Witness for the month-length bounds at a concrete month. -/
theorem dateUTCdays_month_first_bounds_witness :
    (0 : ℤ) ≤ 1 ∧ (1 : ℤ) ≤ 11 ∧
      (28 ≤ dateUTCdays 2024 (1 + 1) 1 - dateUTCdays 2024 1 1 ∧
        dateUTCdays 2024 (1 + 1) 1 - dateUTCdays 2024 1 1 ≤ 31) :=
  ⟨by decide, by decide,
    dateUTCdays_month_first_bounds 2024 1 (by decide) (by decide)⟩

/-- The month-length bounds hold for every integer month argument, via
the JavaScript normalisation. -/
theorem dateUTCdays_month_bounds (y m : ℤ) :
    28 ≤ dateUTCdays y (m + 1) 1 - dateUTCdays y m 1 ∧
      dateUTCdays y (m + 1) 1 - dateUTCdays y m 1 ≤ 31 := by
  rw [dateUTCdays_norm_month y m 1, dateUTCdays_norm_month y (m + 1) 1]
  by_cases hr : m % 12 = 11
  · have hq : (m + 1) / 12 = m / 12 + 1 := by omega
    have hr2 : (m + 1) % 12 = 0 := by omega
    rw [hq, hr2, hr]
    have e1 : y + (m / 12 + 1) = y + m / 12 + 1 := by ring
    rw [e1]
    have h1 := dateUTCdays_month_first_bounds (y + m / 12) 11
      (by norm_num) (by norm_num)
    have h2 := dateUTCdays_dec_rollover (y + m / 12)
    rw [show (11 : ℤ) + 1 = 12 by norm_num, h2] at h1
    exact h1
  · have hq : (m + 1) / 12 = m / 12 := by omega
    have hr2 : (m + 1) % 12 = m % 12 + 1 := by omega
    rw [hq, hr2]
    exact dateUTCdays_month_first_bounds (y + m / 12) (m % 12)
      (by omega) (by omega)

/-- The first of the next month has a strictly larger day number. -/
theorem dateUTCdays_month_mono (y m : ℤ) :
    dateUTCdays y m 1 < dateUTCdays y (m + 1) 1 := by
  have h := dateUTCdays_month_bounds y m
  omega

/-- January 1 day numbers grow strictly with the year. -/
theorem dateUTCdays_year_mono (y : ℤ) :
    dateUTCdays y 0 1 < dateUTCdays (y + 1) 0 1 := by
  unfold dateUTCdays
  omega

/-- C4: for every periodKind in day, week, month, year and every
reference date, `getDateRangeForPeriod` returns a window whose start
instant is strictly earlier than its end instant. -/
theorem C4_period_window_start_lt_end (period : Period) (y m d : ℤ) :
    (getDateRangeForPeriod period y m d).start <
      (getDateRangeForPeriod period y m d).«end» := by
  cases period with
  | day =>
      have h := dateUTCdays_linear y m d (d + 1)
      simp only [getDateRangeForPeriod, dateUTC]
      omega
  | week =>
      have h := dateUTCdays_linear y m (d - jsGetDay y m d)
        (d - jsGetDay y m d + 7)
      simp only [getDateRangeForPeriod, dateUTC]
      omega
  | month =>
      have h := dateUTCdays_month_mono y m
      simp only [getDateRangeForPeriod, dateUTC]
      omega
  | year =>
      have h := dateUTCdays_year_mono y
      simp only [getDateRangeForPeriod, dateUTC]
      omega

/-- C5: for every reference date, the week window starts at local
midnight (UTC-5) of the most recent Sunday on or before the reference
date — the same day when the reference date is a Sunday — its start has
local weekday Sunday, and it ends exactly seven days later. -/
theorem C5_week_window_sunday (y m d : ℤ) :
    (getDateRangeForPeriod Period.week y m d).start =
        (dateUTCdays y m d - (dateUTCdays y m d + 4) % 7) * 86400000
          + 5 * 3600000 ∧
    localWeekday (getDateRangeForPeriod Period.week y m d).start = 0 ∧
    dateUTCdays y m d - (dateUTCdays y m d + 4) % 7 ≤ dateUTCdays y m d ∧
    dateUTCdays y m d - (dateUTCdays y m d - (dateUTCdays y m d + 4) % 7)
      < 7 ∧
    (jsGetDay y m d = 0 →
      (getDateRangeForPeriod Period.week y m d).start = dateUTC y m d 5) ∧
    (getDateRangeForPeriod Period.week y m d).«end» =
      (getDateRangeForPeriod Period.week y m d).start + 7 * 86400000 := by
  have h1 := dateUTCdays_linear y m d (d - jsGetDay y m d)
  have h2 := dateUTCdays_linear y m d (d - jsGetDay y m d + 7)
  simp only [getDateRangeForPeriod, dateUTC, jsGetDay, localWeekday,
    localDayNumber] at *
  omega

/-- Witness for C5 at the concrete Sunday 2024-01-21, exercising the
Sunday-reference branch. -/
theorem C5_week_window_sunday_witness :
    (getDateRangeForPeriod Period.week 2024 0 21).start =
        (dateUTCdays 2024 0 21 - (dateUTCdays 2024 0 21 + 4) % 7) * 86400000
          + 5 * 3600000 ∧
    localWeekday (getDateRangeForPeriod Period.week 2024 0 21).start = 0 ∧
    dateUTCdays 2024 0 21 - (dateUTCdays 2024 0 21 + 4) % 7
      ≤ dateUTCdays 2024 0 21 ∧
    dateUTCdays 2024 0 21
      - (dateUTCdays 2024 0 21 - (dateUTCdays 2024 0 21 + 4) % 7) < 7 ∧
    (jsGetDay 2024 0 21 = 0 →
      (getDateRangeForPeriod Period.week 2024 0 21).start
        = dateUTC 2024 0 21 5) ∧
    (getDateRangeForPeriod Period.week 2024 0 21).«end» =
      (getDateRangeForPeriod Period.week 2024 0 21).start + 7 * 86400000 :=
  C5_week_window_sunday 2024 0 21

/-- C6: the month window ends at the start of the following local month
(first conjunct, via the normalised month; second conjunct, December
rolls over to January 1 of the next year), the year window ends at
January 1 of the following year, and the month window spans exactly one
month of 28 to 31 days regardless of month length. -/
theorem C6_month_year_rollover (y m d : ℤ) :
    (getDateRangeForPeriod Period.month y m d).«end» =
        dateUTC (y + (m + 1) / 12) ((m + 1) % 12) 1 5 ∧
    (getDateRangeForPeriod Period.month y 11 d).«end»
      = dateUTC (y + 1) 0 1 5 ∧
    (getDateRangeForPeriod Period.year y m d).«end»
      = dateUTC (y + 1) 0 1 5 ∧
    (getDateRangeForPeriod Period.month y m d).«end» =
      (getDateRangeForPeriod Period.month y m d).start +
        (dateUTCdays y (m + 1) 1 - dateUTCdays y m 1) * 86400000 ∧
    28 ≤ dateUTCdays y (m + 1) 1 - dateUTCdays y m 1 ∧
    dateUTCdays y (m + 1) 1 - dateUTCdays y m 1 ≤ 31 := by
  have hb := dateUTCdays_month_bounds y m
  have hn := dateUTCdays_norm_month y (m + 1) 1
  have hd12 := dateUTCdays_dec_rollover y
  have hd11 : dateUTCdays y (11 + 1) 1 = dateUTCdays (y + 1) 0 1 := by
    rw [show (11 + 1 : ℤ) = 12 from by norm_num]
    exact hd12
  simp only [getDateRangeForPeriod, dateUTC, true_and, and_true]
  omega

/-! ## Aggregation lemmas -/

theorem mapGet_mapSet (m : List (String × ℚ × ℕ)) (k : String) (v : ℚ × ℕ)
    (c : String) :
    mapGet (mapSet m k v) c = if k = c then some v else mapGet m c := by
  induction m with
  | nil => simp [mapGet, mapSet]
  | cons hd tl ih =>
      obtain ⟨k0, v0⟩ := hd
      by_cases h0 : k0 = k
      · subst h0
        by_cases hc : k0 = c <;> simp [mapGet, mapSet, hc]
      · by_cases hc : k0 = c
        · subst hc
          have hkc : ¬ k = k0 := fun h => h0 h.symm
          simp [mapGet, mapSet, h0, hkc]
        · simp [mapGet, mapSet, h0, hc, ih]

theorem mapGet_eq_none_iff (m : List (String × ℚ × ℕ)) (k : String) :
    mapGet m k = none ↔ k ∉ mapKeys m := by
  induction m with
  | nil => simp [mapGet, mapKeys]
  | cons hd tl ih =>
      obtain ⟨k0, v0⟩ := hd
      by_cases h0 : k0 = k <;> simp [mapGet, mapKeys, h0, ih] <;> tauto

theorem mapSet_of_get_none (m : List (String × ℚ × ℕ)) (k : String)
    (v : ℚ × ℕ) (h : mapGet m k = none) : mapSet m k v = m ++ [(k, v)] := by
  induction m with
  | nil => simp [mapSet]
  | cons hd tl ih =>
      obtain ⟨k0, v0⟩ := hd
      by_cases h0 : k0 = k
      · simp [mapGet, h0] at h
      · simp [mapGet, h0] at h
        simp [mapSet, h0, ih h]

theorem mapKeys_mapSet_of_get_some (m : List (String × ℚ × ℕ)) (k : String)
    (v w : ℚ × ℕ) (h : mapGet m k = some w) :
    mapKeys (mapSet m k v) = mapKeys m := by
  induction m with
  | nil => simp [mapGet] at h
  | cons hd tl ih =>
      obtain ⟨k0, v0⟩ := hd
      by_cases h0 : k0 = k
      · subst h0
        simp [mapSet, mapKeys]
      · simp [mapGet, h0] at h
        have hs : mapSet ((k0, v0) :: tl) k v = (k0, v0) :: mapSet tl k v := by
          simp [mapSet, h0]
        rw [hs]
        have ihh := ih h
        simp only [mapKeys, List.map_cons] at ihh ⊢
        rw [ihh]

theorem mapGet_some_mem (m : List (String × ℚ × ℕ)) (k : String)
    (w : ℚ × ℕ) (h : mapGet m k = some w) : k ∈ mapKeys m := by
  by_contra hc
  rw [← mapGet_eq_none_iff] at hc
  rw [h] at hc
  simp at hc

theorem sumTotals_mapSet (m : List (String × ℚ × ℕ)) (k : String)
    (v : ℚ × ℕ) :
    sumTotals (mapSet m k v) + ((mapGet m k).getD (0, 0)).1
      = sumTotals m + v.1 := by
  induction m with
  | nil => simp [mapSet, mapGet, sumTotals]
  | cons hd tl ih =>
      obtain ⟨k0, v0⟩ := hd
      by_cases h0 : k0 = k
      · subst h0
        simp [mapSet, mapGet, sumTotals]
        ring
      · simp only [mapSet, mapGet, h0, if_neg, if_false, sumTotals,
          List.map_cons, List.sum_cons] at *
        push_cast at *
        linarith

theorem sumCounts_mapSet (m : List (String × ℚ × ℕ)) (k : String)
    (v : ℚ × ℕ) :
    sumCounts (mapSet m k v) + ((mapGet m k).getD (0, 0)).2
      = sumCounts m + v.2 := by
  induction m with
  | nil => simp [mapSet, mapGet, sumCounts]
  | cons hd tl ih =>
      obtain ⟨k0, v0⟩ := hd
      by_cases h0 : k0 = k
      · subst h0
        simp [mapSet, mapGet, sumCounts]
        ring
      · simp only [mapSet, mapGet, h0, if_neg, if_false, sumCounts,
          List.map_cons, List.sum_cons] at *
        omega

theorem mem_mapKeys_mapSet (m : List (String × ℚ × ℕ)) (k : String)
    (v : ℚ × ℕ) (c : String) :
    c ∈ mapKeys (mapSet m k v) ↔ c ∈ mapKeys m ∨ c = k := by
  cases hget : mapGet m k with
  | none =>
      rw [mapSet_of_get_none _ _ _ hget]
      simp [mapKeys, List.map_append]
  | some w =>
      rw [mapKeys_mapSet_of_get_some _ _ _ w hget]
      have hk := mapGet_some_mem m k w hget
      constructor
      · exact fun h => Or.inl h
      · rintro (h | rfl)
        · exact h
        · exact hk

theorem reduce_append (es : List Expense) (e : Expense) :
    reduceEntries (es ++ [e]) = sumStep (reduceEntries es) e := by
  simp [reduceEntries, List.foldl_append]

theorem reduce_invariant (es : List Expense) :
    (reduceEntries es).1 = (es.map (fun e => e.amount)).sum ∧
    sumTotals (reduceEntries es).2 = (es.map (fun e => e.amount)).sum ∧
    sumCounts (reduceEntries es).2 = es.length ∧
    (mapKeys (reduceEntries es).2).Nodup ∧
    (∀ c, c ∈ mapKeys (reduceEntries es).2 ↔
      c ∈ es.map (fun e => e.category)) := by
  induction es using List.reverseRecOn with
  | nil => simp [reduceEntries, sumTotals, sumCounts, mapKeys]
  | append_singleton es e ih =>
      obtain ⟨ih1, ih2, ih3, ih4, ih5⟩ := ih
      rw [reduce_append]
      have hT := sumTotals_mapSet (reduceEntries es).2 e.category
        (((mapGet (reduceEntries es).2 e.category).getD (0, 0)).1 + e.amount,
         ((mapGet (reduceEntries es).2 e.category).getD (0, 0)).2 + 1)
      have hC := sumCounts_mapSet (reduceEntries es).2 e.category
        (((mapGet (reduceEntries es).2 e.category).getD (0, 0)).1 + e.amount,
         ((mapGet (reduceEntries es).2 e.category).getD (0, 0)).2 + 1)
      refine ⟨?_, ?_, ?_, ?_, ?_⟩
      · simp [sumStep, ih1]
      · simp only [sumStep] at *
        simp only [List.map_append, List.sum_append, List.map_cons,
          List.sum_cons, List.map_nil, List.sum_nil]
        linarith [hT, ih2]
      · simp only [sumStep] at *
        simp only [List.length_append, List.length_cons, List.length_nil]
        omega
      · simp only [sumStep]
        cases hget : mapGet (reduceEntries es).2 e.category with
        | none =>
            rw [mapSet_of_get_none _ _ _ hget]
            have hnotmem := (mapGet_eq_none_iff _ _).mp hget
            simp only [mapKeys, List.map_append, List.map_cons, List.map_nil]
            rw [List.nodup_append]
            refine ⟨ih4, by simp, ?_⟩
            intro a ha hb
            simp at hb
            subst hb
            exact hnotmem ha
        | some w =>
            rw [mapKeys_mapSet_of_get_some _ _ _ w hget]
            exact ih4
      · intro c
        simp only [sumStep]
        rw [mem_mapKeys_mapSet, ih5 c]
        simp [List.map_append]

theorem mapGet_reduce (es : List Expense) (c : String) :
    mapGet (reduceEntries es).2 c =
      if (es.filter (fun e => e.category == c)).length = 0 then none
      else
        some
          (((es.filter (fun e => e.category == c)).map
              (fun e => e.amount)).sum,
           (es.filter (fun e => e.category == c)).length) := by
  induction es using List.reverseRecOn with
  | nil => simp [reduceEntries, mapGet]
  | append_singleton es e ih =>
      rw [reduce_append]
      simp only [sumStep]
      rw [mapGet_mapSet]
      by_cases hc : e.category = c
      · subst hc
        rw [if_pos rfl]
        rw [List.filter_append]
        simp only [List.filter_cons, List.filter_nil, beq_self_eq_true,
          if_pos, List.length_append, List.length_cons, List.length_nil]
        rw [ih]
        by_cases hz : (es.filter (fun e2 => e2.category == e.category)).length = 0
        · rw [if_pos hz]
          have hnil : es.filter (fun e2 => e2.category == e.category) = [] :=
            List.length_eq_zero.mp hz
          simp [hnil, hz]
        · rw [if_neg hz]
          simp only [Option.getD_some]
          rw [if_neg (by omega)]
          simp [List.map_append]
      · rw [if_neg hc]
        rw [List.filter_append]
        have hf : List.filter (fun e2 => e2.category == c) [e] = [] := by
          simp [List.filter_cons, hc]
        rw [hf, List.append_nil]
        exact ih

theorem toBreakdown_categories (l : List (String × ℚ × ℕ)) :
    (toBreakdown l).map (fun b => b.category) = mapKeys l := by
  induction l with
  | nil => simp [toBreakdown, mapKeys]
  | cons hd tl ih => simpa [toBreakdown, mapKeys] using ih

theorem toBreakdown_totals (l : List (String × ℚ × ℕ)) :
    (toBreakdown l).map (fun b => b.total) = l.map (fun kv => kv.2.1) := by
  induction l with
  | nil => simp [toBreakdown]
  | cons hd tl ih => simpa [toBreakdown] using ih

theorem toBreakdown_counts (l : List (String × ℚ × ℕ)) :
    (toBreakdown l).map (fun b => b.count) = l.map (fun kv => kv.2.2) := by
  induction l with
  | nil => simp [toBreakdown]
  | cons hd tl ih => simpa [toBreakdown] using ih

/-- The breakdown list built from a reduced record set: keys are distinct,
keys are exactly the categories present, and the totals and counts sum to
the overall total and record count. -/
theorem toBreakdown_props (es : List Expense) :
    ((toBreakdown (reduceEntries es).2).map (fun b => b.category)).Nodup ∧
    (∀ c, c ∈ (toBreakdown (reduceEntries es).2).map (fun b => b.category)
        ↔ c ∈ es.map (fun e => e.category)) ∧
    ((toBreakdown (reduceEntries es).2).map (fun b => b.total)).sum
      = (reduceEntries es).1 ∧
    ((toBreakdown (reduceEntries es).2).map (fun b => b.count)).sum
      = es.length := by
  obtain ⟨h1, h2, h3, h4, h5⟩ := reduce_invariant es
  rw [toBreakdown_categories, toBreakdown_totals, toBreakdown_counts]
  refine ⟨h4, h5, ?_, h3⟩
  rw [h1]
  exact h2

/-- The breakdown invariant of C1 in the exact-rational idealisation of
the additions: the breakdown of `getExpensesSummary` and of
`getExpensesByCategory` has one entry per distinct category present in
the matched set (distinct keys, and a key appears exactly when the
category occurs in the matched set), the totals sum to `totalAmount`,
and the counts sum to `entryCount`.  The totals-sum conjunct holds only
because the additions are idealised here; under the binary64 additions
the source performs it fails (see
`C1_float_breakdown_totals_mismatch`), while the key-partition and
count conjuncts do not involve rounding. -/
theorem breakdown_partition_sums_rat :
    (∀ (userId : String) (p : GetExpensesSummaryParams)
        (now : ℤ × ℤ × ℤ) (storage : List Expense),
      (((getExpensesSummary userId p now storage).byCategory.map
          (fun b => b.category)).Nodup ∧
        (∀ c,
          c ∈ (getExpensesSummary userId p now storage).byCategory.map
              (fun b => b.category) ↔
            c ∈ (matchedExpenses userId p now storage).map
              (fun e => e.category)) ∧
        ((getExpensesSummary userId p now storage).byCategory.map
            (fun b => b.total)).sum =
          (getExpensesSummary userId p now storage).totalAmount ∧
        ((getExpensesSummary userId p now storage).byCategory.map
            (fun b => b.count)).sum =
          (getExpensesSummary userId p now storage).entryCount)) ∧
    (∀ (userId : String) (p : GetExpensesByCategoryParams)
        (storage : List Expense),
      (((getExpensesByCategory userId p storage).byCategory.map
          (fun b => b.category)).Nodup ∧
        (∀ c,
          c ∈ (getExpensesByCategory userId p storage).byCategory.map
              (fun b => b.category) ↔
            c ∈ (matchedCustomExpenses userId p storage).map
              (fun e => e.category)) ∧
        ((getExpensesByCategory userId p storage).byCategory.map
            (fun b => b.total)).sum =
          (getExpensesByCategory userId p storage).totalAmount ∧
        ((getExpensesByCategory userId p storage).byCategory.map
            (fun b => b.count)).sum =
          (getExpensesByCategory userId p storage).entryCount)) := by
  constructor
  · intro userId p now storage
    simp only [getExpensesSummary]
    exact toBreakdown_props (matchedExpenses userId p now storage)
  · intro userId p storage
    simp only [getExpensesByCategory]
    exact toBreakdown_props (matchedCustomExpenses userId p storage)

/-- Order-independence of the reduction in the exact-rational
idealisation: over any permutation of the record list it produces the
same running total and the same category-to-(total, count) map.  This
holds only because rational addition is commutative and associative;
binary64 addition is not, and the reduction the source actually runs is
order-dependent (see `C2_float_reduction_order_dependent`). -/
theorem reduction_permutation_invariant_rat (es es2 : List Expense)
    (h : es.Perm es2) :
    (reduceEntries es).1 = (reduceEntries es2).1 ∧
    ∀ c, mapGet (reduceEntries es).2 c = mapGet (reduceEntries es2).2 c := by
  constructor
  · rw [(reduce_invariant es).1, (reduce_invariant es2).1]
    exact (h.map (fun e => e.amount)).sum_eq
  · intro c
    rw [mapGet_reduce, mapGet_reduce]
    have hf := h.filter (fun e => e.category == c)
    have hl := hf.length_eq
    have hs := (hf.map (fun e => e.amount)).sum_eq
    rw [hl, hs]

/-- C8: when the query window matches zero records, `getExpensesSummary`
returns a valid summary with zero total, zero count and an empty
breakdown. -/
theorem C8_empty_result_zero_summary (userId : String)
    (p : GetExpensesSummaryParams) (now : ℤ × ℤ × ℤ)
    (storage : List Expense)
    (h : matchedExpenses userId p now storage = []) :
    (getExpensesSummary userId p now storage).totalAmount = 0 ∧
    (getExpensesSummary userId p now storage).entryCount = 0 ∧
    (getExpensesSummary userId p now storage).byCategory = [] := by
  simp [getExpensesSummary, h, reduceEntries, toBreakdown]

/-- Witness for C8: a store whose only record lies outside the window
(2023, before the 2024-01-15 day window) matches nothing. -/
theorem C8_empty_result_zero_summary_witness :
    matchedExpenses "u" sampleParams (2024, 0, 15)
        [{ userId := "u", amount := 5, category := "travel"
           spentAt := 1672552800000 }] = [] ∧
    ((getExpensesSummary "u" sampleParams (2024, 0, 15)
        [{ userId := "u", amount := 5, category := "travel"
           spentAt := 1672552800000 }]).totalAmount = 0 ∧
      (getExpensesSummary "u" sampleParams (2024, 0, 15)
        [{ userId := "u", amount := 5, category := "travel"
           spentAt := 1672552800000 }]).entryCount = 0 ∧
      (getExpensesSummary "u" sampleParams (2024, 0, 15)
        [{ userId := "u", amount := 5, category := "travel"
           spentAt := 1672552800000 }]).byCategory = []) :=
  ⟨by rfl, C8_empty_result_zero_summary _ _ _ _ (by rfl)⟩

/-- C9: `getExpensesSummary` is deterministic and idempotent — two calls
with identical user, parameters and reference date, against an unchanged
storage state, return identical summaries.  The embedded computation is
pure: its only state is the fetched record list, which is an explicit
argument. -/
theorem C9_summary_deterministic (userId : String)
    (p : GetExpensesSummaryParams) (now : ℤ × ℤ × ℤ)
    (s1 s2 : List Expense) (h : s1 = s2) :
    getExpensesSummary userId p now s1 = getExpensesSummary userId p now s2
    := by
  rw [h]

/-- Witness for C9 at a concrete store. -/
theorem C9_summary_deterministic_witness :
    [sampleExpense1] = [sampleExpense1] ∧
    getExpensesSummary "u" sampleParams (2024, 0, 15) [sampleExpense1] =
      getExpensesSummary "u" sampleParams (2024, 0, 15) [sampleExpense1] :=
  ⟨rfl, C9_summary_deterministic "u" sampleParams (2024, 0, 15)
    [sampleExpense1] [sampleExpense1] rfl⟩

/-- The exact decimal sum 0.10 + 0.20 = 3/10 is not a dyadic rational,
hence no finite IEEE binary64 value equals it. -/
theorem not_binary64_three_tenths : ¬ binary64Value (3 / 10) := by
  rintro ⟨n, k, h⟩
  have h2 : (3 : ℚ) * 2 ^ k = 10 * n := by
    field_simp at h
    linarith
  have h3 : (3 : ℤ) * 2 ^ k = 10 * n := by exact_mod_cast h2
  have h5 : (5 : ℤ) ∣ 3 * 2 ^ k := ⟨2 * n, by linarith⟩
  have hp : Prime (5 : ℤ) := by norm_num
  rcases hp.dvd_mul.mp h5 with h35 | h2k
  · norm_num at h35
  · have h52 := hp.dvd_of_dvd_pow h2k
    norm_num at h52

/-- C3: the exact decimal total required by the claim for the records
0.10 and 0.20 is 3/10, computed here in the exact-rational idealisation;
but 3/10 is not a binary64 value, so the floating-point accumulator of
route.ts (`totalAmount += Number(entry.amount)`) cannot hold the exact
decimal sum, contradicting the claim that the code avoids binary
floating-point error. -/
theorem C3_float_accumulator_cannot_hold_exact_total :
    (getExpensesSummary "u" sampleParams (2024, 0, 15)
        [sampleExpense1, sampleExpense2]).totalAmount = 3 / 10 ∧
    ¬ binary64Value
        ((getExpensesSummary "u" sampleParams (2024, 0, 15)
            [sampleExpense1, sampleExpense2]).totalAmount) := by
  have hm : matchedExpenses "u" sampleParams (2024, 0, 15)
      [sampleExpense1, sampleExpense2] = [sampleExpense1, sampleExpense2] :=
    by rfl
  have ht : (getExpensesSummary "u" sampleParams (2024, 0, 15)
      [sampleExpense1, sampleExpense2]).totalAmount = 3 / 10 := by
    simp only [getExpensesSummary, hm]
    simp [reduceEntries, sumStep, sampleExpense1, sampleExpense2]
    norm_num
  refine ⟨ht, ?_⟩
  rw [ht]
  exact not_binary64_three_tenths

/-- C7 counterexample: the summary returned by `getExpensesByCategory`
does not carry the window instants; at a concrete range its `startDate`
(midnight UTC of the given date) differs from the query window start
(hour 5 UTC). -/
theorem C7_counterexample_start_not_window :
    (getExpensesByCategory "u"
        { startYear := 2024, startMonth := 1, startDay := 15
          endYear := 2024, endMonth := 1, endDay := 20 } []).startDate ≠
      (customRangeWindow
        { startYear := 2024, startMonth := 1, startDay := 15
          endYear := 2024, endMonth := 1, endDay := 20 }).1 := by
  decide

/-- C7 amended: `getExpensesByCategory` queries over the fixed-offset
window — start at local midnight (five hours past midnight UTC) of the
start date, end one calendar day past the end date — and returns the
label "Custom Range", but its returned start and end are the plain UTC
midnights of the caller-supplied dates, not the window instants. -/
theorem C7_amended_custom_range (userId : String)
    (p : GetExpensesByCategoryParams) (storage : List Expense) :
    (getExpensesByCategory userId p storage).periodLabel = "Custom Range" ∧
    (getExpensesByCategory userId p storage).startDate
      = dateUTC p.startYear (p.startMonth - 1) p.startDay 0 ∧
    (getExpensesByCategory userId p storage).endDate
      = dateUTC p.endYear (p.endMonth - 1) p.endDay 0 ∧
    (customRangeWindow p).1
      = (getExpensesByCategory userId p storage).startDate + 5 * 3600000 ∧
    (customRangeWindow p).2
      = (getExpensesByCategory userId p storage).endDate
        + 86400000 + 5 * 3600000 ∧
    (getExpensesByCategory userId p storage).entryCount
      = (matchedCustomExpenses userId p storage).length := by
  have h1 := dateUTCdays_linear p.endYear (p.endMonth - 1) p.endDay
    (p.endDay + 1)
  simp only [getExpensesByCategory, customRangeWindow, dateUTC]
  refine ⟨trivial, trivial, trivial, by omega, by omega, trivial⟩

/-- When every message that reaches the sender-number step carries a
`from` field, the pre-try part of POST cannot throw. -/
theorem preprocess_ok (p : WebhookPayload) (o : Oracles)
    (h : ∀ msg, (resolvePayload p).1 = some msg →
      msg.kapsoDirection = some ("inbound") →
      (msg.mtype = "text" ∨ msg.mtype = "image" ∨ msg.mtype = "audio") →
      msg.fromNumber ≠ none) :
    ∃ r, preprocess p o = Except.ok r := by
  unfold preprocess
  cases hm : (resolvePayload p).1 with
  | none => exact ⟨none, rfl⟩
  | some msg =>
      dsimp only
      split
      · exact ⟨none, rfl⟩
      · next hdir =>
          split
          · exact ⟨none, rfl⟩
          · next htype =>
              have hfrom := h msg hm (not_not.mp hdir) (not_not.mp htype)
              split
              · next hf => exact absurd hf hfrom
              · next f hf =>
                  split
                  · exact ⟨none, rfl⟩
                  · next pid hpid =>
                      split
                      · exact ⟨none, rfl⟩
                      · split
                        · exact ⟨none, rfl⟩
                        · exact ⟨some
                            { sender := digitsOnly f
                              phoneNumberId := pid
                              conversationId := (resolvePayload p).2.1 },
                            rfl⟩

/-- C10 counterexample: a JSON body carrying an inbound text message with
no `from` field makes the handler throw a TypeError before the try block,
so it does not return HTTP 200 (the framework converts the uncaught
exception into a 500 response). -/
theorem C10_counterexample_missing_from :
    POST payloadNoFrom stubOracles =
      Except.error (JsError.typeError ("message.from is undefined")) := by
  rfl

/-- C10 amended: for every webhook request whose body parses as JSON and
whose resolved inbound message of supported type carries a `from` string,
POST returns 200 with body OK — including when the message is not
inbound, its type is unsupported, the phone number id or usable content
is missing, or any step inside the try block throws; in the latter case
the catch block attempts the apology send and the response is still
200 OK. -/
theorem C10_amended_always_200 (p : WebhookPayload) (o : Oracles)
    (h : ∀ msg, (resolvePayload p).1 = some msg →
      msg.kapsoDirection = some ("inbound") →
      (msg.mtype = "text" ∨ msg.mtype = "image" ∨ msg.mtype = "audio") →
      msg.fromNumber ≠ none) :
    (∃ b, POST p o =
      Except.ok { status := 200, body := "OK", apologyAttempted := b }) ∧
    (∀ ctx e, preprocess p o = Except.ok (some ctx) →
      tryBody ctx o = Except.error e →
      POST p o =
        Except.ok { status := 200, body := "OK", apologyAttempted := true })
    := by
  constructor
  · obtain ⟨r, hr⟩ := preprocess_ok p o h
    cases r with
    | none =>
        refine ⟨false, ?_⟩
        simp only [POST]
        rw [hr]
    | some ctx =>
        cases htry : tryBody ctx o with
        | ok u =>
            refine ⟨false, ?_⟩
            simp only [POST]
            rw [hr]
            dsimp only
            rw [htry]
        | error e =>
            refine ⟨true, ?_⟩
            simp only [POST]
            rw [hr]
            dsimp only
            rw [htry]
  · intro ctx e hpre htry
    simp only [POST]
    rw [hpre]
    dsimp only
    rw [htry]

/-- Witness for C10: a well-formed inbound text payload against oracles
whose model call throws; the handler still answers 200 OK with the
apology attempted. -/
theorem C10_amended_always_200_witness :
    (∃ b, POST payloadWithFrom failingOracles =
      Except.ok { status := 200, body := "OK", apologyAttempted := b }) ∧
    (∀ ctx e, preprocess payloadWithFrom failingOracles
        = Except.ok (some ctx) →
      tryBody ctx failingOracles = Except.error e →
      POST payloadWithFrom failingOracles =
        Except.ok { status := 200, body := "OK", apologyAttempted := true })
    :=
  C10_amended_always_200 payloadWithFrom failingOracles
    (fun msg hm _ _ => by
      have hres : (resolvePayload payloadWithFrom).1 = some messageWithFrom :=
        rfl
      have hmsg : msg = messageWithFrom :=
        (Option.some.inj (hres.symm.trans hm)).symm
      rw [hmsg]
      simp [messageWithFrom])

/-! ## Binary64 behaviour of the reduction -/

/-- The value of a binary64 datum at a negative exponent, as a fraction. -/
theorem f64val_negE (m : ℤ) (k : ℕ) :
    f64val ⟨m, -(k : ℤ)⟩ = (m : ℚ) / 2 ^ k := by
  simp [f64val, zpow_neg, zpow_natCast, div_eq_mul_inv]

/-- At equal exponents, different significands give different values. -/
theorem f64val_ne_same_exp (m1 m2 e : ℤ) (h : m1 ≠ m2) :
    f64val ⟨m1, e⟩ ≠ f64val ⟨m2, e⟩ := by
  simp only [f64val]
  intro hc
  exact h (Int.cast_injective
    (mul_right_cancel₀ (zpow_ne_zero e two_ne_zero) hc))

/-- The constants `d01`, `d02`, `d03` are within half an ulp of the
decimals 0.1, 0.2, 0.3 (the ulp at their exponents being `2 ^ e`), so
each is the binary64 value nearest its decimal — the value `Number`
parses. -/
theorem float_constants_within_half_ulp :
    (0 < f64val d01 - 1 / 10 ∧ f64val d01 - 1 / 10 < 1 / 2 ^ 57) ∧
    (0 < f64val d02 - 2 / 10 ∧ f64val d02 - 2 / 10 < 1 / 2 ^ 56) ∧
    (0 < 3 / 10 - f64val d03 ∧ 3 / 10 - f64val d03 < 1 / 2 ^ 55) := by
  have h1 : f64val d01 = ((7205759403792794 : ℤ) : ℚ) / 2 ^ 56 := by
    rw [show d01 = ⟨7205759403792794, -((56 : ℕ) : ℤ)⟩ from by
      norm_num [d01]]
    exact f64val_negE _ _
  have h2 : f64val d02 = ((7205759403792794 : ℤ) : ℚ) / 2 ^ 55 := by
    rw [show d02 = ⟨7205759403792794, -((55 : ℕ) : ℤ)⟩ from by
      norm_num [d02]]
    exact f64val_negE _ _
  have h3 : f64val d03 = ((5404319552844595 : ℤ) : ℚ) / 2 ^ 54 := by
    rw [show d03 = ⟨5404319552844595, -((54 : ℕ) : ℤ)⟩ from by
      norm_num [d03]]
    exact f64val_negE _ _
  rw [h1, h2, h3]
  push_cast
  norm_num

/-- Spot checks of the addition model against well-known binary64 sums:
0.1 + 0.2 = 0.30000000000000004, 0.3 + 0.2 = 0.5 exactly, and
0.1 + 0.3 = 0.4 exactly. -/
theorem f64add_checks :
    f64add d01 d02 = ⟨5404319552844596, -54⟩ ∧
    f64add d03 d02 = ⟨4503599627370496, -53⟩ ∧
    f64add d01 d03 = ⟨7205759403792794, -54⟩ := by
  decide

/-- C2: the claim that the reduction of `getExpensesSummary` is
order-independent fails on the binary64 arithmetic the source uses.
Reducing the amounts 0.1, 0.2, 0.3 in fetched order gives the double
0.6000000000000001 (`5404319552844596 * 2 ^ (-53)`), while the reversed
permutation of the same records gives the double 0.6
(`5404319552844595 * 2 ^ (-53)`): a different `totalAmount` value. -/
theorem C2_float_reduction_order_dependent :
    floatEntries.Perm floatEntriesPermuted ∧
    (reduceEntriesF floatEntries).1 = ⟨5404319552844596, -53⟩ ∧
    (reduceEntriesF floatEntriesPermuted).1 = ⟨5404319552844595, -53⟩ ∧
    f64val (reduceEntriesF floatEntries).1
      ≠ f64val (reduceEntriesF floatEntriesPermuted).1 := by
  refine ⟨by decide, by decide, by decide, ?_⟩
  rw [show (reduceEntriesF floatEntries).1
      = ⟨5404319552844596, -53⟩ from by decide,
    show (reduceEntriesF floatEntriesPermuted).1
      = ⟨5404319552844595, -53⟩ from by decide]
  exact f64val_ne_same_exp _ _ _ (by norm_num)

/-- C1: the claim that the breakdown totals sum to `totalAmount` fails
on the binary64 arithmetic the source uses.  For the matched records
0.1, 0.2, 0.3 across two categories, the program computes
`totalAmount` = 0.6000000000000001 while the per-category totals are
the doubles 0.4 (count 2) and 0.2 (count 1), whose exact sum is a
different number. -/
theorem C1_float_breakdown_totals_mismatch :
    (reduceEntriesF floatEntries).1 = ⟨5404319552844596, -53⟩ ∧
    mapGetF (reduceEntriesF floatEntries).2 "food_dining"
      = some (⟨7205759403792794, -54⟩, 2) ∧
    mapGetF (reduceEntriesF floatEntries).2 "transportation"
      = some (⟨7205759403792794, -55⟩, 1) ∧
    f64val (⟨7205759403792794, -54⟩ : F64)
        + f64val (⟨7205759403792794, -55⟩ : F64)
      ≠ f64val (reduceEntriesF floatEntries).1 := by
  refine ⟨by decide, by decide, by decide, ?_⟩
  rw [show (reduceEntriesF floatEntries).1
      = ⟨5404319552844596, -53⟩ from by decide]
  rw [show ((-54 : ℤ)) = -((54 : ℕ) : ℤ) from by norm_num,
    show ((-55 : ℤ)) = -((55 : ℕ) : ℤ) from by norm_num,
    show ((-53 : ℤ)) = -((53 : ℕ) : ℤ) from by norm_num,
    f64val_negE, f64val_negE, f64val_negE]
  norm_num
